import Mathlib

/-!
Verification of the pokesage client-side battle engine against its
natural-language specification.

The definitions below are a shallow embedding of the Python sources:
  * pokesage/battle/utilities.py   (targeting geometry)
  * pokesage/battle/choices.py     (choice data model and serialization)
  * pokesage/battle/battle.py      (battle record)
  * pokesage/processors/showdownprocessor.py (request handling, turn expansion,
    decision recording)
  * pokesage/connectors/websocketconnector.py (action validation/submission)
Python dicts that preserve insertion order are modelled as association lists;
machine integers are Int/Nat; raised exceptions are modelled with Option/Except.
-/

namespace Pokesage

/-- Gametype literal: singles, doubles or triples (battle.py, Literal type). -/
inductive Gametype where
  | singles
  | doubles
  | triples
deriving DecidableEq, Repr

/-- DexMoveTarget enum from poketypes, restricted to the fifteen members that
appear in the need_dict of utilities.needs_target. -/
inductive DexMoveTarget where
  | self
  | adjacentAlly
  | adjacentAllyOrSelf
  | all
  | allAdjacent
  | allAdjacentFoes
  | allies
  | allySide
  | allyTeam
  | any
  | foeSide
  | normal
  | randomNormal
  | scripted
  | adjacentFoe
deriving DecidableEq, Repr

/-- Embedding of utilities.needs_target: whether a move of this target
category requires an explicit target slot (None never needs one). -/
def needs_target : Option DexMoveTarget → Bool
  | none => false
  | some t =>
    match t with
    | .self => false
    | .adjacentAlly => true
    | .adjacentAllyOrSelf => true
    | .all => false
    | .allAdjacent => false
    | .allAdjacentFoes => false
    | .allies => false
    | .allySide => false
    | .allyTeam => false
    | .any => true
    | .foeSide => false
    | .normal => true
    | .randomNormal => false
    | .scripted => false
    | .adjacentFoe => true

/-- Slot count for each gametype as used by can_target_slot:
max_num = 2 if gametype == "doubles" else 3 (utilities.py line 128). -/
def max_num (gametype : Gametype) : Int :=
  if gametype = Gametype.doubles then 2 else 3

/-- Local boolean is_adj_ally of utilities.can_target_slot (line 133):
same side and abs(source_slot - target_slot) == 1. -/
def is_adj_ally_calc (source_slot target_slot : Int) : Bool :=
  decide (source_slot * target_slot > 0) && ((source_slot - target_slot).natAbs == 1)

/-- Local boolean is_adj_foe of utilities.can_target_slot (line 134):
opposite side and abs(abs(source_slot) - max_num - 1) == abs(target_slot). -/
def is_adj_foe_calc (source_slot target_slot : Int) (gametype : Gametype) : Bool :=
  decide (source_slot * target_slot < 0) &&
    (((source_slot.natAbs : Int) - max_num gametype - 1).natAbs == target_slot.natAbs)

/-- Local boolean is_corner_foe of utilities.can_target_slot (line 135):
opposite side and abs(abs(abs(source_slot) - max_num - 1) - abs(target_slot)) == 1. -/
def is_corner_foe_calc (source_slot target_slot : Int) (gametype : Gametype) : Bool :=
  decide (source_slot * target_slot < 0) &&
    (((((source_slot.natAbs : Int) - max_num gametype - 1).natAbs : Int)
        - (target_slot.natAbs : Int)).natAbs == 1)

/-- Embedding of utilities.can_target_slot. Returns none for the final
else-branch, where the Python code raises RuntimeError on an unrecognized
move target; all other paths return some of the boolean the code returns. -/
def can_target_slot (source_slot target_slot : Int) (move_target : DexMoveTarget)
    (gametype : Gametype) : Option Bool :=
  if !needs_target (some move_target) then some false
  else
    let is_self : Bool := source_slot == target_slot
    let is_adj_ally := is_adj_ally_calc source_slot target_slot
    let is_adj_foe := is_adj_foe_calc source_slot target_slot gametype
    let is_corner_foe := is_corner_foe_calc source_slot target_slot gametype
    let is_adjacent := is_adj_ally || is_adj_foe
    match move_target with
    | .adjacentAlly => some is_adj_ally
    | .adjacentAllyOrSelf => some (is_adj_ally || is_self)
    | .any => some (!is_self)
    | .normal => some (is_adjacent || is_corner_foe)
    | .adjacentFoe => some (is_adj_foe || is_corner_foe)
    | _ => none

/-- Embedding of utilities.get_valid_target_slots: filter the filled slots by
can_target_slot (the RuntimeError branch is unreachable here because every
target category that needs a target is matched by the if-chain). -/
def get_valid_target_slots (source_slot : Int) (filled_slots : List Int)
    (move_target : DexMoveTarget) (gametype : Gametype) : List Int :=
  filled_slots.filter (fun t => can_target_slot source_slot t move_target gametype == some true)

/-- Embedding of Python str.join as used in choices.py: sep.join(parts). -/
def str_join (sep : String) : List String → String
  | [] => ""
  | [s] => s
  | s :: rest => s ++ sep ++ str_join sep rest

/-- TeamChoice data model (choices.py): a list of integer pokemon slots in the
order the player wants them. -/
structure TeamChoice where
  team_order : List Int
deriving DecidableEq, Repr

/-- Embedding of TeamChoice.to_showdown (choices.py lines 30-39): the keyword
team then the orders comma-joined when ten or more entries, else concatenated. -/
def TeamChoice.to_showdown (tc : TeamChoice) : String :=
  if tc.team_order.length ≥ 10 then
    "team " ++ str_join "," (tc.team_order.map (fun s => toString s))
  else
    "team " ++ str_join "" (tc.team_order.map (fun s => toString s))

/-- MoveChoice data model (choices.py lines 42-69) with its four one-time
resource flags, all defaulting to False in the Python model. -/
structure MoveChoice where
  move_number : Int
  target_type : Option DexMoveTarget
  target_number : Option Int := none
  tera : Bool := false
  mega : Bool := false
  dyna : Bool := false
  zmove : Bool := false
deriving DecidableEq, Repr

/-- Embedding of MoveChoice.to_showdown (choices.py lines 71-90). The Python
strip() is a no-op here because the choice always starts with a non-space. -/
def MoveChoice.to_showdown (mc : MoveChoice) : String :=
  let choice := "move " ++ toString mc.move_number
  let choice := match mc.target_number with
    | some t => choice ++ " " ++ toString t
    | none => choice
  let choice := if mc.tera then choice ++ " terastallize" else choice
  let choice := if mc.mega then choice ++ " mega" else choice
  let choice := if mc.dyna then choice ++ " dynamax" else choice
  if mc.zmove then choice ++ " zmove" else choice

/-- SwitchChoice data model (choices.py lines 93-112). -/
structure SwitchChoice where
  slot : Int
deriving DecidableEq, Repr

/-- Embedding of SwitchChoice.to_showdown. -/
def SwitchChoice.to_showdown (sc : SwitchChoice) : String :=
  "switch " ++ toString sc.slot

/-- SlotChoice alias (choices.py line 217): the per-slot tagged union of
MoveChoice, SwitchChoice, ItemChoice and PassChoice. ItemChoice carries no
fields in the source. -/
inductive SlotChoice where
  | move (mc : MoveChoice)
  | switch (sc : SwitchChoice)
  | item
  | pass
deriving DecidableEq, Repr

/-- Per-slot serialization: ItemChoice.to_showdown raises NotImplementedError
in the source (choices.py line 133), modelled as none; PassChoice yields the
literal pass. -/
def SlotChoice.to_showdown : SlotChoice → Option String
  | .move mc => some mc.to_showdown
  | .switch sc => some sc.to_showdown
  | .item => none
  | .pass => some "pass"

/-- DexStatus from poketypes, restricted to the fainted marker the request
processing inspects plus a representative healthy condition. -/
inductive DexStatus where
  | fnt
  | brn
  | par
  | psn
  | tox
  | slp
  | frz
deriving DecidableEq, Repr

/-- BattlePokemon (pokemon.py), restricted to the fields the legal-action
enumeration reads. The Python team_pos is Optional, but processbm_request sets
it to e+1 on every roster member before the enumeration code runs, so it is
modelled as a plain integer here. -/
structure BattlePokemon where
  team_pos : Int
  active : Bool
  status : Option DexStatus
  is_reviving : Bool
deriving DecidableEq, Repr

/-- Player team: an insertion-ordered Python dict, modelled as an association
list from pokemon id to BattlePokemon. -/
abbrev Team := List (String × BattlePokemon)

/-- Slot table: an insertion-ordered Python dict from 1-indexed slot number to
the occupant id or None. -/
abbrev SlotTable := List (Nat × Option String)

/-- Python dict lookup on a slot table, flattening the occupant Option; the
slot tables built by processbm_gametype hold exactly the keys 1..slot count,
so a KeyError is not modelled separately from an empty slot. -/
def lookupSlot (slots : SlotTable) (k : Nat) : Option String :=
  match slots.find? (fun kv => kv.1 == k) with
  | some kv => kv.2
  | none => none

/-- Python dict lookup on a player team. -/
def lookupTeam (team : Team) (k : String) : Option BattlePokemon :=
  (team.find? (fun kv => kv.1 == k)).map Prod.snd

/-- Per-slot battle_choice entry: either a bare PassChoice placeholder or a
list of slot choices (the two shapes processbm_request and processbm_turn
store in current_state.battle_choice). -/
inductive SlotOption where
  | passOpt
  | options (l : List SlotChoice)
deriving DecidableEq, Repr

/-- BattleChoice variants stored in BattleState.battle_choice (choices.py
lines 206-214): either a single TeamChoice or a per-slot list. -/
inductive BattleChoiceV where
  | team (tc : TeamChoice)
  | slots (l : List SlotOption)
deriving DecidableEq, Repr

/-- Embedding of the TEAMPREVIEW branch of processbm_request (lines 668-675):
battle_choice becomes one TeamChoice whose team_order is
list(range(1, len(player_team) + 1)). -/
def teampreview_choice (player_team : Team) : BattleChoiceV :=
  BattleChoiceV.team ⟨(List.range' 1 player_team.length).map (fun n => Int.ofNat n)⟩

/-- Embedding of switch_options (processbm_request lines 678-682): one
SwitchChoice per roster member that is neither fainted nor active. -/
def switch_options (team : Team) : List SwitchChoice :=
  ((team.map Prod.snd).filter
    (fun p => !(p.status == some DexStatus.fnt) && !p.active)).map
    (fun p => SwitchChoice.mk p.team_pos)

/-- Embedding of revive_options (processbm_request lines 683-687): one
SwitchChoice per fainted roster member. -/
def revive_options (team : Team) : List SwitchChoice :=
  ((team.map Prod.snd).filter (fun p => p.status == some DexStatus.fnt)).map
    (fun p => SwitchChoice.mk p.team_pos)

/-- Condition of processbm_request line 696: the slot occupant exists and is
mid-revival. An occupant id missing from the roster is modelled as not
reviving; that case would raise KeyError in Python and is excluded by the
slot invariant. -/
def occupant_reviving_calc (player_slots : SlotTable) (player_team : Team) (i : Nat) : Bool :=
  match lookupSlot player_slots (i + 1) with
  | some pid => ((lookupTeam player_team pid).map (fun p => p.is_reviving)).getD false
  | none => false

/-- Embedding of the FORCESWITCH branch of processbm_request (lines 689-706).
Out-of-range reads of FORCESWITCH_SLOTS are modelled as False; Python would
raise IndexError there and the request always carries one flag per slot. -/
def forceswitch_choices (slot_length : Nat) (forceswitch_slots : List Bool)
    (player_slots : SlotTable) (player_team : Team) : List SlotOption :=
  (List.range slot_length).map (fun i =>
    if forceswitch_slots.getD i false then
      if occupant_reviving_calc player_slots player_team i then
        SlotOption.options ((revive_options player_team).map SlotChoice.switch)
      else
        SlotOption.options ((switch_options player_team).map SlotChoice.switch)
    else SlotOption.passOpt)

/-- Per-move request data from the ACTIVE_OPTIONS block of a request message
(the fields processbm_request reads from each m_data). -/
structure MData where
  DISABLED : Bool
  CUR_PP : Nat
  TARGET : Option DexMoveTarget
  CAN_DYNAMAX : Bool
  DYNAMAX_TARGET : Option DexMoveTarget
  CAN_ZMOVE : Bool
  ZMOVE_TARGET : Option DexMoveTarget
deriving DecidableEq, Repr

/-- Per-slot active-request data (the fields processbm_request reads from each
ACTIVE_OPTIONS entry). -/
structure ActiveOption where
  MOVES : List MData
  CAN_TERA : Bool
  CAN_MEGA : Bool
  TRAPPED : Bool
deriving DecidableEq, Repr

/-- Embedding of the move_options loop of processbm_request (lines 722-745):
enumerate(ao.MOVES) with the 0-indexed counter move_num, skipping disabled or
out-of-PP moves, and duplicating each kept move with a tera/mega/dynamax/zmove
variant when that one-time resource is still available. -/
def build_move_options (canTera canMega hasTera hasMega hasDyna hasZmove : Bool) :
    Nat → List MData → List MoveChoice
  | _, [] => []
  | move_num, m :: rest =>
    (if m.DISABLED || m.CUR_PP == 0 then []
     else
        [{ move_number := ((move_num : Int) + 1), target_type := m.TARGET }]
        ++ (if canTera && !hasTera then
              [{ move_number := (move_num : Int) + 1, tera := true, target_type := m.TARGET }]
            else [])
        ++ (if canMega && !hasMega then
              [{ move_number := (move_num : Int) + 1, mega := true, target_type := m.TARGET }]
            else [])
        ++ (if m.CAN_DYNAMAX && !hasDyna then
              [{ move_number := (move_num : Int) + 1, dyna := true, target_type := m.DYNAMAX_TARGET }]
            else [])
        ++ (if m.CAN_ZMOVE && !hasZmove then
              [{ move_number := (move_num : Int) + 1, zmove := true, target_type := m.ZMOVE_TARGET }]
            else []))
    ++ build_move_options canTera canMega hasTera hasMega hasDyna hasZmove (move_num + 1) rest

/-- Embedding of the per-slot tail of the ACTIVE branch (lines 747-752):
moves plus switch options unless the slot is trapped. -/
def active_slot_choices (ao : ActiveOption) (hasTera hasMega hasDyna hasZmove : Bool)
    (team : Team) : List SlotChoice :=
  let move_options :=
    (build_move_options ao.CAN_TERA ao.CAN_MEGA hasTera hasMega hasDyna hasZmove 0 ao.MOVES).map
      SlotChoice.move
  if !ao.TRAPPED then move_options ++ (switch_options team).map SlotChoice.switch
  else move_options

/-- Embedding of the ACTIVE branch loop of processbm_request (lines 710-754):
slots beyond len(ACTIVE_OPTIONS) get a PassChoice placeholder. -/
def active_choices (slot_length : Nat) (active_options : List ActiveOption)
    (hasTera hasMega hasDyna hasZmove : Bool) (team : Team) : List SlotOption :=
  (List.range slot_length).map (fun i =>
    match active_options.get? i with
    | none => SlotOption.passOpt
    | some ao => SlotOption.options (active_slot_choices ao hasTera hasMega hasDyna hasZmove team))

/-- Predicate: the slot choice is a MoveChoice. -/
def SlotChoice.isMove : SlotChoice → Bool
  | .move _ => true
  | _ => false

/-- Predicate: the slot choice is a SwitchChoice. -/
def SlotChoice.isSwitch : SlotChoice → Bool
  | .switch _ => true
  | _ => false

/-- Embedding of the filled_slots computation of processbm_turn (lines
794-795): player slots negated, opponent slots positive, keeping only
occupied entries, in slot-table order. -/
def filled_slots_calc (player_slots opponent_slots : SlotTable) : List Int :=
  (player_slots.filterMap (fun kv =>
      match kv.2 with
      | some _ => some ((-1 : Int) * (kv.1 : Int))
      | none => none))
    ++ (opponent_slots.filterMap (fun kv =>
      match kv.2 with
      | some _ => some ((kv.1 : Int))
      | none => none))

/-- Embedding of the inner loop of processbm_turn (lines 802-821): move
choices that need a target are replaced by one copy per valid target slot
(with only move_number, target_number and target_type set), everything else
is appended unchanged. -/
def clean_slot_options (gametype : Gametype) (filled_slots : List Int) (source_slot : Int) :
    List SlotChoice → List SlotChoice
  | [] => []
  | sc :: rest =>
    (match sc with
     | SlotChoice.move mc =>
        match mc.target_type with
        | none => [SlotChoice.move mc]
        | some mt =>
          if !needs_target (some mt) then [SlotChoice.move mc]
          else
            (get_valid_target_slots source_slot filled_slots mt gametype).map
              (fun target_slot => SlotChoice.move
                { move_number := mc.move_number
                  target_number := some target_slot
                  target_type := mc.target_type })
     | sc => [sc])
    ++ clean_slot_options gametype filled_slots source_slot rest

/-- Embedding of the outer loop of processbm_turn (lines 797-822): slot e
becomes a PassChoice when it already was one or when player slot e+1 is
empty; otherwise its option list is cleaned with source slot -(e+1). -/
def turn_clean_loop (gametype : Gametype) (filled_slots : List Int)
    (player_slots : SlotTable) : Nat → List SlotOption → List SlotOption
  | _, [] => []
  | e, o :: rest =>
    (match o with
     | SlotOption.passOpt => SlotOption.passOpt
     | SlotOption.options l =>
        if lookupSlot player_slots (e + 1) = none then SlotOption.passOpt
        else SlotOption.options
          (clean_slot_options gametype filled_slots ((-1 : Int) * ((e : Int) + 1)) l))
    :: turn_clean_loop gametype filled_slots player_slots (e + 1) rest

/-- BattleState restricted to the fields processbm_turn reads and writes. -/
structure StateLite where
  player_slots : SlotTable
  opponent_slots : SlotTable
  battle_choice : Option BattleChoiceV
deriving DecidableEq, Repr

/-- Embedding of processbm_turn (lines 778-824) minus the turn-counter write:
no-op for singles and for a TeamChoice battle_choice; none models the
TypeError Python would raise iterating a missing battle_choice. -/
def processbm_turn_update (gametype : Gametype) (st : StateLite) : Option StateLite :=
  if gametype = Gametype.singles then some st
  else
    match st.battle_choice with
    | some (BattleChoiceV.team _) => some st
    | some (BattleChoiceV.slots opts) =>
      let filled := filled_slots_calc st.player_slots st.opponent_slots
      let cleaned := BattleChoiceV.slots (turn_clean_loop gametype filled st.player_slots 0 opts)
      some { st with battle_choice := some cleaned }
    | none => none

/-- AnyChoice variants (choices.py lines 198-205): a per-slot list, a
TeamChoice, resign, default, quit, or None. -/
inductive AnyChoiceV where
  | slots (l : List SlotChoice)
  | team (tc : TeamChoice)
  | resign
  | defaultChoice
  | quit
  | noneChoice
deriving DecidableEq, Repr

/-- Battle record restricted to the fields of process_action (showdownprocessor
lines 28-39): parallel state and action sequences plus the log. -/
structure BattleRec where
  battle_states : List StateLite
  battle_actions : List AnyChoiceV
  log : List String
deriving DecidableEq, Repr

/-- Embedding of ShowdownProcessor.process_action (lines 28-39): append the
action string to the log, the action to battle_actions, and a deep copy of the
last snapshot to battle_states; none models the IndexError of
battle_states[-1] on an empty list. A deepcopy is the value itself in this
pure model. -/
def processor_process_action (b : BattleRec) (action : AnyChoiceV) (action_str : String) :
    Option BattleRec :=
  match b.battle_states.getLast? with
  | none => none
  | some last => some
    { b with
      log := b.log ++ [action_str]
      battle_actions := b.battle_actions ++ [action]
      battle_states := b.battle_states ++ [last] }

/-- Battle records reachable through the processor lifecycle: created with
empty lists by the Processor constructor, first snapshot appended by
processbm_init (the first protocol message of a battle), later snapshots
appended only by process_action, and all other handlers only rewrite the last
snapshot in place or extend the log. -/
inductive BattleReachable : BattleRec → Prop where
  | created : BattleReachable ⟨[], [], []⟩
  | initEvent (b : BattleRec) (bs : StateLite) : BattleReachable b →
      b.battle_states = [] →
      BattleReachable { b with battle_states := b.battle_states ++ [bs] }
  | decided (b b' : BattleRec) (a : AnyChoiceV) (s : String) : BattleReachable b →
      processor_process_action b a s = some b' → BattleReachable b'
  | rewroteLast (b : BattleRec) (st : StateLite) : BattleReachable b →
      b.battle_states ≠ [] →
      BattleReachable { b with battle_states := b.battle_states.dropLast ++ [st] }
  | logged (b : BattleRec) (line : String) : BattleReachable b →
      BattleReachable { b with log := b.log ++ [line] }

/-- ProgressState enum (abstractprocessor.py lines 17-26). -/
inductive ProgressState where
  | noAction
  | teamOrder
  | move
  | switch
  | gameEnd
  | fullEnd
deriving DecidableEq, Repr

/-- ConnectionTerminationCode enum (abstractconnector.py lines 15-24). -/
inductive ConnectionTerminationCode where
  | objectiveComplete
  | invalidChoice
  | setupError
  | connectionError
  | processorError
  | otherError
deriving DecidableEq, Repr

/-- ConnectionTermination model (abstractconnector.py lines 27-36). -/
structure ConnectionTermination where
  code : ConnectionTerminationCode
  message : Option String := none
deriving DecidableEq, Repr

/-- Python exceptions submit_action can raise, with their argument text:
failed asserts, NotImplementedError from ItemChoice.to_showdown, and KeyError
from the battle_processors dict lookup. -/
inductive PyExn where
  | assertionError (msg : String)
  | notImplementedError
  | keyError (msg : String)
deriving DecidableEq, Repr

/-- Slot count per gametype, as checked by submit_action (websocketconnector
lines 510-514 and 527-531) and Battle.slot_length. -/
def slot_count : Gametype → Nat
  | Gametype.singles => 1
  | Gametype.doubles => 2
  | Gametype.triples => 3

/-- Beartype check for TeamOrderChoice once quit and resign are handled:
a TeamChoice or a DefaultChoice. -/
def bearable_team_order : AnyChoiceV → Bool
  | AnyChoiceV.team _ => true
  | AnyChoiceV.defaultChoice => true
  | _ => false

/-- Beartype check for ForceSwitchChoice once quit and resign are handled:
a DefaultChoice or a list of Switch/Pass choices only. -/
def bearable_force_switch : AnyChoiceV → Bool
  | AnyChoiceV.defaultChoice => true
  | AnyChoiceV.slots l => l.all (fun sc =>
      match sc with
      | SlotChoice.switch _ => true
      | SlotChoice.pass => true
      | _ => false)
  | _ => false

/-- Beartype check for MoveDecisionChoice once quit and resign are handled:
a DefaultChoice or any list of slot choices. -/
def bearable_move_decision : AnyChoiceV → Bool
  | AnyChoiceV.defaultChoice => true
  | AnyChoiceV.slots _ => true
  | _ => false

/-- Serialization of a per-slot action list: Python joins the per-slot
to_showdown results with commas, and an ItemChoice raises
NotImplementedError (modelled by the none result of SlotChoice.to_showdown). -/
def serialize_slot_list (l : List SlotChoice) : Except PyExn String :=
  match l.mapM SlotChoice.to_showdown with
  | some parts => Except.ok (str_join "," parts)
  | none => Except.error PyExn.notImplementedError

/-- Embedding of WebsocketConnector.submit_action (lines 445-541). The result
carries the optional ConnectionTermination the Python function returns and the
frame transmitted over the websocket, if any; Except models raised exceptions.
The known_processors list stands for the keys of self.battle_processors, whose
lookup on line 539 raises KeyError for an unknown battle id. -/
def submit_action (gametype : Gametype) (known_processors : List String)
    (progress_state : ProgressState) (action : AnyChoiceV) (battle_id : Option String) :
    Except PyExn (Option ConnectionTermination × Option String) :=
  if action = AnyChoiceV.quit then
    Except.ok (some ⟨ConnectionTerminationCode.otherError, some "USER REQUESTED SHUTDOWN"⟩, none)
  else if action = AnyChoiceV.resign then
    match battle_id with
    | none => Except.error (PyExn.assertionError
        "battle_id was None but you sent a resignation! When not in a battle, send QuitChoice instead!")
    | some _ => Except.ok (none, none)
  else
    let action_str := (match battle_id with
      | some b => b
      | none => "None") ++ "|/choose "
    let with_payload : Except PyExn String :=
      match progress_state with
      | ProgressState.teamOrder =>
        if !bearable_team_order action then
          Except.error (PyExn.assertionError "action was not a valid TeamOrderChoice!")
        else if battle_id = none then
          Except.error (PyExn.assertionError
            "battle_id was None! This likely means a bug in websocketconnector, not your code!")
        else
          match action with
          | AnyChoiceV.team tc => Except.ok (action_str ++ tc.to_showdown)
          | _ => Except.ok (action_str ++ "default")
      | ProgressState.switch =>
        if !bearable_force_switch action then
          Except.error (PyExn.assertionError "action was not a valid ForceSwitchChoice!")
        else if battle_id = none then
          Except.error (PyExn.assertionError
            "battle_id was None! This likely means a bug in websocketconnector, not your code!")
        else
          match action with
          | AnyChoiceV.slots l =>
            if l.length ≠ slot_count gametype then
              Except.error (PyExn.assertionError
                ("gametype mismatch: you sent " ++ toString l.length ++ " commands!"))
            else (serialize_slot_list l).map (fun p => action_str ++ p)
          | _ => Except.ok (action_str ++ "default")
      | ProgressState.move =>
        if !bearable_move_decision action then
          Except.error (PyExn.assertionError "action was not a valid MoveDecisionChoice!")
        else if battle_id = none then
          Except.error (PyExn.assertionError
            "battle_id was None! This likely means a bug in websocketconnector, not your code!")
        else
          match action with
          | AnyChoiceV.slots l =>
            if l.length ≠ slot_count gametype then
              Except.error (PyExn.assertionError
                ("gametype mismatch: you sent " ++ toString l.length ++ " commands!"))
            else (serialize_slot_list l).map (fun p => action_str ++ p)
          | _ => Except.ok (action_str ++ "default")
      | _ =>
        if action = AnyChoiceV.noneChoice then Except.ok ""
        else Except.error (PyExn.assertionError "action was not None outside a decision point!")
    match progress_state, with_payload with
    | ProgressState.noAction, Except.ok _ => Except.ok (none, none)
    | ProgressState.gameEnd, Except.ok _ => Except.ok (none, none)
    | ProgressState.fullEnd, Except.ok _ => Except.ok (none, none)
    | _, Except.error e => Except.error e
    | _, Except.ok payload =>
      match battle_id with
      | some b =>
        if b ∈ known_processors then Except.ok (none, some payload)
        else Except.error (PyExn.keyError b)
      | none => Except.error (PyExn.keyError "None")

/-- Embedding of WebsocketConnector.process_action (lines 394-443), dropping
the log-file side effects of the GAME_END branch: FULL_END returns an
objective-complete termination, GAME_END archives the battle and returns
None, and otherwise submit_action runs with AssertionError and
NotImplementedError caught as INVALID_CHOICE and any other exception as
OTHER_ERROR. -/
def connector_process_action (gametype : Gametype) (known_processors : List String)
    (progress_state : ProgressState) (action : AnyChoiceV) (battle_id : Option String) :
    Option ConnectionTermination :=
  if progress_state = ProgressState.fullEnd then
    some ⟨ConnectionTerminationCode.objectiveComplete, none⟩
  else if progress_state = ProgressState.gameEnd then none
  else
    match submit_action gametype known_processors progress_state action battle_id with
    | Except.ok (r, _) => r
    | Except.error (PyExn.assertionError m) =>
      some ⟨ConnectionTerminationCode.invalidChoice, some m⟩
    | Except.error PyExn.notImplementedError =>
      some ⟨ConnectionTerminationCode.invalidChoice, some "NotImplementedError"⟩
    | Except.error (PyExn.keyError m) =>
      some ⟨ConnectionTerminationCode.otherError, some m⟩

/-- Outcome of one decision point inside launch_connection. -/
inductive LoopOutcome where
  | continueLoop
  | endConnection (ct : ConnectionTermination)
deriving DecidableEq, Repr

/-- Embedding of the launch_connection control flow around process_action
(websocketconnector lines 158-191): a None termination continues the message
loop, any termination breaks out and the generator yields FULL_END with it,
ending the whole connection. -/
def launch_step (conn_term : Option ConnectionTermination) : LoopOutcome :=
  match conn_term with
  | none => LoopOutcome.continueLoop
  | some ct => LoopOutcome.endConnection ct

/-- Bench of a roster: the non-fainted, inactive members, in roster order
(the filter underlying switch_options). -/
def bench_members (team : Team) : List BattlePokemon :=
  (team.map Prod.snd).filter (fun p => !(p.status == some DexStatus.fnt) && !p.active)

/-- Fainted members of a roster, in roster order (the filter underlying
revive_options). -/
def fainted_members (team : Team) : List BattlePokemon :=
  (team.map Prod.snd).filter (fun p => p.status == some DexStatus.fnt)

/-- Concrete pending slot-choice list for the c3 witness: a target-needing
move carrying a set tera flag, a no-target move, and a switch. -/
def demoTurnList : List SlotChoice :=
  [SlotChoice.move ⟨1, some DexMoveTarget.normal, none, true, false, false, false⟩,
   SlotChoice.move ⟨2, none, none, false, false, false, false⟩,
   SlotChoice.switch ⟨3⟩]

/-- Concrete pending battle_choice entries for the c3 witness. -/
def demoTurnOpts : List SlotOption :=
  [SlotOption.options demoTurnList,
   SlotOption.options [SlotChoice.move ⟨1, some DexMoveTarget.self, none, false, false, false, false⟩]]

/-- Concrete doubles state at the turn-advance event for the c3 witness:
player slot 1 occupied, player slot 2 empty, both opponent slots occupied. -/
def demoTurnState : StateLite :=
  ⟨[(1, some "a"), (2, none)], [(1, some "x"), (2, some "y")],
   some (BattleChoiceV.slots demoTurnOpts)⟩

/-- Concrete roster used by witnesses: one reviving active member, one healthy
active member, two healthy bench members, one fainted bench member. -/
def demoTeam : Team :=
  [("p1_pikachu_M_Sparky", ⟨1, true, some DexStatus.fnt, true⟩),
   ("p1_eevee_F_Fluff", ⟨2, true, none, false⟩),
   ("p1_ditto_N_Blob", ⟨3, false, none, false⟩),
   ("p1_snorlax_M_Big", ⟨4, false, some DexStatus.brn, false⟩),
   ("p1_gastly_N_Spook", ⟨5, false, some DexStatus.fnt, false⟩)]

/-- Concrete active-request data for the c4 witness: three usable moves and
no one-time resource. -/
def demoActive : ActiveOption :=
  { MOVES :=
      [⟨false, 10, some DexMoveTarget.normal, false, none, false, none⟩,
       ⟨false, 5, some DexMoveTarget.self, false, none, false, none⟩,
       ⟨false, 24, some DexMoveTarget.any, false, none, false, none⟩]
    CAN_TERA := false
    CAN_MEGA := false
    TRAPPED := false }

/-- Roster with four bench members for the c4 witness. -/
def demoBenchTeam : Team :=
  [("p1_eevee_F_Fluff", ⟨1, true, none, false⟩),
   ("p1_ditto_N_Blob", ⟨2, false, none, false⟩),
   ("p1_snorlax_M_Big", ⟨3, false, some DexStatus.brn, false⟩),
   ("p1_gastly_N_Spook", ⟨4, false, none, false⟩),
   ("p1_mew_N_New", ⟨5, false, none, false⟩),
   ("p1_abra_M_Zzz", ⟨6, false, some DexStatus.fnt, false⟩)]

/-- Freshly created battle record: what the Processor constructor builds. -/
def emptyBattle : BattleRec := ⟨[], [], []⟩

/-- Concrete reachable record for the c7 witness: created, then the init
event appended the first snapshot. -/
def demoBattle : BattleRec := ⟨[demoTurnState], [], []⟩

end Pokesage

namespace Pokesage

/-- Sanity: whenever the target category needs a target, can_target_slot never
reaches the RuntimeError branch. -/
theorem can_target_slot_total (s t : Int) (mt : DexMoveTarget) (g : Gametype)
    (h : needs_target (some mt) = true) : (can_target_slot s t mt g).isSome := by
  cases mt <;> simp_all [can_target_slot, needs_target]

/-- Helper: prepending a string across the head of a str_join. -/
theorem str_join_cons_append (sep x y : String) (l : List String) :
    str_join sep ((x ++ y) :: l) = x ++ str_join sep (y :: l) := by
  cases l with
  | nil => rfl
  | cons a l =>
    show (x ++ y) ++ sep ++ _ = x ++ (y ++ sep ++ _)
    rw [String.append_assoc, String.append_assoc, String.append_assoc]

/-- Helper: the accumulator form of String.intercalate agrees with str_join. -/
theorem intercalate_go_eq_str_join (sep : String) (l : List String) :
    ∀ acc : String, String.intercalate.go acc sep l = str_join sep (acc :: l) := by
  induction l with
  | nil => intro acc; rfl
  | cons a l ih =>
    intro acc
    show String.intercalate.go (acc ++ sep ++ a) sep l = acc ++ sep ++ str_join sep (a :: l)
    rw [ih (acc ++ sep ++ a), str_join_cons_append sep (acc ++ sep) a l]

/-- The Python comma-join embedding agrees with String.intercalate. -/
theorem str_join_eq_intercalate (sep : String) (l : List String) :
    str_join sep l = String.intercalate sep l := by
  cases l with
  | nil => rfl
  | cons a l => rw [String.intercalate, intercalate_go_eq_str_join]

/-- Helper: folding String.append from an accumulator is the accumulator
followed by the separator-free join. -/
theorem foldl_append_eq_str_join (l : List String) :
    ∀ acc : String, l.foldl (· ++ ·) acc = acc ++ str_join "" l := by
  induction l with
  | nil => intro acc; simp [str_join, String.append_empty]
  | cons a l ih =>
    intro acc
    rw [List.foldl_cons, ih (acc ++ a)]
    have h2 : str_join "" (a :: l) = a ++ str_join "" l := by
      cases l with
      | nil => simp [str_join, String.append_empty]
      | cons b l => show a ++ "" ++ _ = _ ; rw [String.append_empty]
    rw [h2, String.append_assoc]

/-- The Python separator-free join embedding agrees with String.join. -/
theorem str_join_empty_eq_join (l : List String) :
    str_join "" l = String.join l := by
  rw [String.join, foldl_append_eq_str_join, String.empty_append]

/-- Claim C9: for every TeamChoice, the outbound wire payload is the keyword
team followed by the ordering, comma-joined when the team_order list has ten
or more entries and concatenated without separators when it has fewer. -/
theorem c9_teamchoice_serialization (tc : TeamChoice) :
    tc.to_showdown =
      "team " ++
        (if tc.team_order.length ≥ 10 then
          String.intercalate "," (tc.team_order.map (fun s => toString s))
        else
          String.join (tc.team_order.map (fun s => toString s))) := by
  unfold TeamChoice.to_showdown
  by_cases h : tc.team_order.length ≥ 10
  · simp [h, str_join_eq_intercalate]
  · simp [h, str_join_empty_eq_join]

/-- Claim C8: on a team-preview request the battle_choice becomes a single
TeamChoice (no permutation enumeration) whose team_order has one entry per
roster member, entry i being i+1, in strictly ascending order. -/
theorem c8_teampreview_natural_order (team : Team) (i : Nat) (h : i < team.length) :
    ∃ tc : TeamChoice, teampreview_choice team = BattleChoiceV.team tc ∧
      tc.team_order.length = team.length ∧
      tc.team_order.get? i = some ((i : Int) + 1) ∧
      List.Chain' (· < ·) tc.team_order := by
  refine ⟨⟨(List.range' 1 team.length).map (fun n => Int.ofNat n)⟩, rfl, ?_, ?_, ?_⟩
  · rw [List.length_map, List.length_range']
  · rw [List.get?_map, List.get?_range' 1 1 h]
    simp only [Option.map_some']
    congr 1
    rw [Int.ofNat_eq_coe]
    push_cast
    ring
  · exact ((List.pairwise_lt_range' 1 team.length).map (fun n => Int.ofNat n)
      (fun a b hab => Int.ofNat_lt.mpr hab)).chain'

/-- Witness for c8_teampreview_natural_order at the demo roster and index 3. -/
theorem c8_teampreview_witness :
    3 < demoTeam.length ∧
    (∃ tc : TeamChoice, teampreview_choice demoTeam = BattleChoiceV.team tc ∧
      tc.team_order.length = demoTeam.length ∧
      tc.team_order.get? 3 = some ((3 : Int) + 1) ∧
      List.Chain' (· < ·) tc.team_order) :=
  ⟨by decide, c8_teampreview_natural_order demoTeam 3 (by decide)⟩

/-- Claim C5: on a force-switch request, a flagged slot receives the
SwitchChoices for every non-fainted inactive roster member, or for every
fainted member when its occupant is mid-revival, and an unflagged slot
receives a PassChoice placeholder. -/
theorem c5_forceswitch_enumeration (slot_length : Nat) (fs : List Bool)
    (player_slots : SlotTable) (team : Team) (i : Nat) (h : i < slot_length) :
    (forceswitch_choices slot_length fs player_slots team).get? i =
      some (if fs.getD i false then
              (if occupant_reviving_calc player_slots team i then
                SlotOption.options ((revive_options team).map SlotChoice.switch)
              else SlotOption.options ((switch_options team).map SlotChoice.switch))
            else SlotOption.passOpt) ∧
    (∀ s : Int, SwitchChoice.mk s ∈ switch_options team ↔
      ∃ p ∈ bench_members team, s = p.team_pos) ∧
    (∀ p : BattlePokemon, p ∈ bench_members team ↔
      p ∈ team.map Prod.snd ∧ ¬ p.status = some DexStatus.fnt ∧ p.active = false) ∧
    (∀ s : Int, SwitchChoice.mk s ∈ revive_options team ↔
      ∃ p ∈ fainted_members team, s = p.team_pos) ∧
    (∀ p : BattlePokemon, p ∈ fainted_members team ↔
      p ∈ team.map Prod.snd ∧ p.status = some DexStatus.fnt) := by
  refine ⟨?_, ?_, ?_, ?_, ?_⟩
  · rw [forceswitch_choices, List.get?_map, List.get?_range h]
    rfl
  · intro s
    simp only [switch_options, bench_members, List.mem_map, List.mem_filter,
      SwitchChoice.mk.injEq]
    constructor
    · rintro ⟨p, hp, hps⟩
      exact ⟨p, hp, hps.symm⟩
    · rintro ⟨p, hp, hps⟩
      exact ⟨p, hp, hps.symm⟩
  · intro p
    simp only [bench_members, List.mem_filter, Bool.and_eq_true, Bool.not_eq_true',
      beq_eq_false_iff_ne, ne_eq, Bool.not_eq_true]
  · intro s
    simp only [revive_options, fainted_members, List.mem_map, List.mem_filter,
      SwitchChoice.mk.injEq]
    constructor
    · rintro ⟨p, hp, hps⟩
      exact ⟨p, hp, hps.symm⟩
    · rintro ⟨p, hp, hps⟩
      exact ⟨p, hp, hps.symm⟩
  · intro p
    simp only [fainted_members, List.mem_filter, beq_iff_eq]

/-- Witness for c5_forceswitch_enumeration: doubles, slot 1 flagged with a
reviving occupant, at the demo roster. -/
theorem c5_forceswitch_witness :
    0 < 2 ∧
    ((forceswitch_choices 2 [true, false] [(1, some "p1_pikachu_M_Sparky"), (2, some "p1_eevee_F_Fluff")] demoTeam).get? 0 =
      some (if [true, false].getD 0 false then
              (if occupant_reviving_calc [(1, some "p1_pikachu_M_Sparky"), (2, some "p1_eevee_F_Fluff")] demoTeam 0 then
                SlotOption.options ((revive_options demoTeam).map SlotChoice.switch)
              else SlotOption.options ((switch_options demoTeam).map SlotChoice.switch))
            else SlotOption.passOpt) ∧
    (∀ s : Int, SwitchChoice.mk s ∈ switch_options demoTeam ↔
      ∃ p ∈ bench_members demoTeam, s = p.team_pos) ∧
    (∀ p : BattlePokemon, p ∈ bench_members demoTeam ↔
      p ∈ demoTeam.map Prod.snd ∧ ¬ p.status = some DexStatus.fnt ∧ p.active = false) ∧
    (∀ s : Int, SwitchChoice.mk s ∈ revive_options demoTeam ↔
      ∃ p ∈ fainted_members demoTeam, s = p.team_pos) ∧
    (∀ p : BattlePokemon, p ∈ fainted_members demoTeam ↔
      p ∈ demoTeam.map Prod.snd ∧ p.status = some DexStatus.fnt)) :=
  ⟨by decide,
   c5_forceswitch_enumeration 2 [true, false]
     [(1, some "p1_pikachu_M_Sparky"), (2, some "p1_eevee_F_Fluff")] demoTeam 0 (by decide)⟩

/-- Helper: switch_options is exactly one SwitchChoice per bench member. -/
theorem switch_options_eq_bench (team : Team) :
    switch_options team = (bench_members team).map (fun p => SwitchChoice.mk p.team_pos) := rfl

/-- Helper: with every move usable and no one-time resource applicable, the
move-options loop yields exactly one MoveChoice per move. -/
theorem build_move_options_length (canTera canMega hT hM hD hZ : Bool) (l : List MData)
    (hm : ∀ m ∈ l, m.DISABLED = false ∧ m.CUR_PP ≠ 0 ∧ m.CAN_DYNAMAX = false ∧ m.CAN_ZMOVE = false)
    (htera : (canTera && !hT) = false) (hmega : (canMega && !hM) = false) :
    ∀ k : Nat, (build_move_options canTera canMega hT hM hD hZ k l).length = l.length := by
  induction l with
  | nil => intro k; rfl
  | cons m rest ih =>
    intro k
    obtain ⟨hd, hpp, hdy, hz⟩ := hm m (List.mem_cons_self m rest)
    have hpp' : (m.CUR_PP == 0) = false := by
      simpa using hpp
    have ih' := ih (fun x hx => hm x (List.mem_cons_of_mem m hx)) (k + 1)
    simp [build_move_options, hd, hpp', hdy, hz, htera, hmega, ih']

/-- Claim C4: an active slot with three usable moves, no applicable
tera/mega/dynamax/zmove resource and four bench members enumerates exactly
three MoveChoices plus one SwitchChoice per bench member when untrapped, and
exactly the three MoveChoices with no SwitchChoice when trapped. -/
theorem c4_active_enumeration (ao : ActiveOption) (hT hM hD hZ : Bool) (team : Team)
    (hmoves : ∀ m ∈ ao.MOVES,
      m.DISABLED = false ∧ m.CUR_PP ≠ 0 ∧ m.CAN_DYNAMAX = false ∧ m.CAN_ZMOVE = false)
    (hn : ao.MOVES.length = 3)
    (htera : (ao.CAN_TERA && !hT) = false) (hmega : (ao.CAN_MEGA && !hM) = false)
    (hbench : (bench_members team).length = 4)
    (huntrapped : ao.TRAPPED = false) :
    ((active_slot_choices ao hT hM hD hZ team).countP SlotChoice.isMove = 3 ∧
     (active_slot_choices ao hT hM hD hZ team).filter SlotChoice.isSwitch =
       (bench_members team).map (fun p => SlotChoice.switch ⟨p.team_pos⟩) ∧
     (active_slot_choices ao hT hM hD hZ team).countP SlotChoice.isSwitch = 4) ∧
    ((active_slot_choices { ao with TRAPPED := true } hT hM hD hZ team).countP
        SlotChoice.isMove = 3 ∧
     (active_slot_choices { ao with TRAPPED := true } hT hM hD hZ team).countP
        SlotChoice.isSwitch = 0) := by
  have hlen := build_move_options_length ao.CAN_TERA ao.CAN_MEGA hT hM hD hZ ao.MOVES
    hmoves htera hmega 0
  rw [hn] at hlen
  constructor
  · refine ⟨?_, ?_, ?_⟩
    · simp [active_slot_choices, huntrapped, List.countP_append, List.countP_map,
        SlotChoice.isMove, Function.comp_def, List.countP_true, hlen,
        List.countP_eq_zero, switch_options_eq_bench]
    · simp [active_slot_choices, huntrapped, List.filter_append, List.filter_map,
        SlotChoice.isSwitch, Function.comp_def, switch_options_eq_bench,
        List.map_map, List.filter_true]
    · simp [active_slot_choices, huntrapped, List.countP_append, List.countP_map,
        SlotChoice.isSwitch, Function.comp_def, List.countP_true,
        List.countP_eq_zero, switch_options_eq_bench, hbench]
  · constructor
    · simp [active_slot_choices, List.countP_map, SlotChoice.isMove,
        Function.comp_def, List.countP_true, hlen]
    · simp [active_slot_choices, List.countP_map, SlotChoice.isSwitch,
        Function.comp_def, List.countP_eq_zero]

/-- Witness for c4_active_enumeration at the demo request and roster. -/
theorem c4_active_enumeration_witness :
    ((demoActive.MOVES.length = 3) ∧ ((bench_members demoBenchTeam).length = 4)) ∧
    (((active_slot_choices demoActive false false false false demoBenchTeam).countP
        SlotChoice.isMove = 3 ∧
      (active_slot_choices demoActive false false false false demoBenchTeam).filter
         SlotChoice.isSwitch =
        (bench_members demoBenchTeam).map (fun p => SlotChoice.switch ⟨p.team_pos⟩) ∧
      (active_slot_choices demoActive false false false false demoBenchTeam).countP
        SlotChoice.isSwitch = 4) ∧
     ((active_slot_choices { demoActive with TRAPPED := true } false false false false
         demoBenchTeam).countP SlotChoice.isMove = 3 ∧
      (active_slot_choices { demoActive with TRAPPED := true } false false false false
         demoBenchTeam).countP SlotChoice.isSwitch = 0)) :=
  ⟨⟨by decide, by decide⟩,
   c4_active_enumeration demoActive false false false false demoBenchTeam
     (by decide) (by decide) (by decide) (by decide) (by decide) (by decide)⟩

/-- Helper: the inner cleaning loop of processbm_turn is the flat map that
expands each target-needing move choice into one copy per valid target and
keeps every other choice unchanged. -/
theorem clean_slot_options_eq_flatMap (g : Gametype) (filled : List Int) (src : Int)
    (l : List SlotChoice) :
    clean_slot_options g filled src l = l.flatMap (fun sc =>
      match sc with
      | SlotChoice.move mc =>
        if needs_target mc.target_type then
          (get_valid_target_slots src filled (mc.target_type.getD DexMoveTarget.self) g).map
            (fun t => SlotChoice.move
              { move_number := mc.move_number, target_number := some t,
                target_type := mc.target_type })
        else [SlotChoice.move mc]
      | sc => [sc]) := by
  induction l with
  | nil => rfl
  | cons sc rest ih =>
    rw [List.flatMap_cons, ← ih]
    cases sc with
    | move mc =>
      cases htt : mc.target_type with
      | none => simp [clean_slot_options, htt, needs_target]
      | some mt =>
        by_cases hn : needs_target (some mt) = true
        · simp [clean_slot_options, htt, hn]
        · simp [clean_slot_options, htt, hn, Bool.not_eq_true] at *
    | switch s => simp [clean_slot_options]
    | item => simp [clean_slot_options]
    | pass => simp [clean_slot_options]

/-- Helper: indexing into the outer cleaning loop of processbm_turn. -/
theorem turn_clean_loop_get? (g : Gametype) (filled : List Int) (ps : SlotTable)
    (opts : List SlotOption) :
    ∀ e i : Nat, (turn_clean_loop g filled ps e opts).get? i =
      (opts.get? i).map (fun o =>
        match o with
        | SlotOption.passOpt => SlotOption.passOpt
        | SlotOption.options l =>
          if lookupSlot ps (e + i + 1) = none then SlotOption.passOpt
          else SlotOption.options
            (clean_slot_options g filled ((-1 : Int) * (((e + i : Nat) : Int) + 1)) l)) := by
  induction opts with
  | nil => intro e i; rfl
  | cons o rest ih =>
    intro e i
    cases i with
    | zero => rfl
    | succ j =>
      show (turn_clean_loop g filled ps (e + 1) rest).get? j = _
      rw [ih (e + 1) j]
      have harith : e + 1 + j = e + (j + 1) := by omega
      rw [harith]
      rfl

/-- Claim C3 (amended): on the turn-advance event in a non-singles battle,
the entry of a slot whose player slot e+1 is still occupied becomes the flat
map of its option list in which every move choice needing a target is
replaced by one MoveChoice per valid target slot, computed by
get_valid_target_slots over the filled slots of both sides, while choices
needing no target are kept unchanged; the entry of a slot whose player slot
is now empty becomes a PassChoice placeholder, its pending choices dropped. -/
theorem c3_turn_target_expansion (g : Gametype) (st : StateLite) (opts : List SlotOption)
    (e : Nat) (l : List SlotChoice)
    (hg : g ≠ Gametype.singles)
    (hbc : st.battle_choice = some (BattleChoiceV.slots opts))
    (hopt : opts.get? e = some (SlotOption.options l)) :
    ∃ st', processbm_turn_update g st = some st' ∧
      st'.player_slots = st.player_slots ∧ st'.opponent_slots = st.opponent_slots ∧
      ∃ opts', st'.battle_choice = some (BattleChoiceV.slots opts') ∧
        opts'.get? e = some (
          if lookupSlot st.player_slots (e + 1) = none then SlotOption.passOpt
          else SlotOption.options (l.flatMap (fun sc =>
            match sc with
            | SlotChoice.move mc =>
              if needs_target mc.target_type then
                (get_valid_target_slots ((-1 : Int) * (((e : Nat) : Int) + 1))
                  (filled_slots_calc st.player_slots st.opponent_slots)
                  (mc.target_type.getD DexMoveTarget.self) g).map
                  (fun t => SlotChoice.move
                    { move_number := mc.move_number, target_number := some t,
                      target_type := mc.target_type })
              else [SlotChoice.move mc]
            | sc => [sc]))) := by
  unfold processbm_turn_update
  rw [if_neg hg, hbc]
  refine ⟨_, rfl, rfl, rfl, _, rfl, ?_⟩
  rw [turn_clean_loop_get? g _ st.player_slots opts 0 e, hopt]
  simp only [Nat.zero_add, Option.map_some']
  by_cases hocc : lookupSlot st.player_slots (e + 1) = none
  · rw [if_pos hocc, if_pos hocc]
  · rw [if_neg hocc, if_neg hocc, clean_slot_options_eq_flatMap]

/-- Claim C3, as frozen, is false on the code at a concrete input: the demo
turn state holds at slot index 1 a pending no-target move choice, but player
slot 2 is empty, so processbm_turn replaces the whole entry with a PassChoice
instead of keeping the no-target choice unchanged. -/
theorem c3_counterexample_emptied_slot :
    demoTurnOpts.get? 1 = some (SlotOption.options
      [SlotChoice.move ⟨1, some DexMoveTarget.self, none, false, false, false, false⟩]) ∧
    needs_target (some DexMoveTarget.self) = false ∧
    lookupSlot demoTurnState.player_slots 2 = none ∧
    ∃ st', processbm_turn_update Gametype.doubles demoTurnState = some st' ∧
      ∃ opts', st'.battle_choice = some (BattleChoiceV.slots opts') ∧
        opts'.get? 1 = some SlotOption.passOpt :=
  ⟨rfl, rfl, rfl, _, rfl, _, rfl, rfl⟩

/-- Witness for c3_turn_target_expansion at the demo doubles turn state,
slot index 0 (occupied, so the condition in the conclusion selects the
expansion branch). -/
theorem c3_turn_target_expansion_witness :
    (Gametype.doubles ≠ Gametype.singles ∧
     demoTurnState.battle_choice = some (BattleChoiceV.slots demoTurnOpts) ∧
     demoTurnOpts.get? 0 = some (SlotOption.options demoTurnList)) ∧
    (∃ st', processbm_turn_update Gametype.doubles demoTurnState = some st' ∧
      st'.player_slots = demoTurnState.player_slots ∧
      st'.opponent_slots = demoTurnState.opponent_slots ∧
      ∃ opts', st'.battle_choice = some (BattleChoiceV.slots opts') ∧
        opts'.get? 0 = some (
          if lookupSlot demoTurnState.player_slots (0 + 1) = none then SlotOption.passOpt
          else SlotOption.options (demoTurnList.flatMap (fun sc =>
            match sc with
            | SlotChoice.move mc =>
              if needs_target mc.target_type then
                (get_valid_target_slots ((-1 : Int) * (((0 : Nat) : Int) + 1))
                  (filled_slots_calc demoTurnState.player_slots demoTurnState.opponent_slots)
                  (mc.target_type.getD DexMoveTarget.self) Gametype.doubles).map
                  (fun t => SlotChoice.move
                    { move_number := mc.move_number, target_number := some t,
                      target_type := mc.target_type })
              else [SlotChoice.move mc]
            | sc => [sc])))) :=
  ⟨⟨by decide, rfl, rfl⟩,
   c3_turn_target_expansion Gametype.doubles demoTurnState demoTurnOpts 0 demoTurnList
     (by decide) rfl rfl⟩

/-- Claim C10: after turn-advance target expansion, every move choice in the
cleaned list whose target category needs a target has tera, mega, dyna and
zmove all False, whatever flags the pending choices carried: the expansion
rebuilds MoveChoice with only move_number, target_number and target_type. -/
theorem c10_expansion_strips_flags (g : Gametype) (filled : List Int) (src : Int)
    (l : List SlotChoice) (mc : MoveChoice)
    (hmem : SlotChoice.move mc ∈ clean_slot_options g filled src l)
    (hneeds : needs_target mc.target_type = true) :
    mc.tera = false ∧ mc.mega = false ∧ mc.dyna = false ∧ mc.zmove = false := by
  rw [clean_slot_options_eq_flatMap, List.mem_flatMap] at hmem
  obtain ⟨sc, hsc, hin⟩ := hmem
  cases sc with
  | move mc0 =>
    by_cases hn : needs_target mc0.target_type = true
    · simp only [hn, if_true, List.mem_map] at hin
      obtain ⟨t, _, hteq⟩ := hin
      injection hteq with h
      rw [← h]
      exact ⟨rfl, rfl, rfl, rfl⟩
    · simp only [hn, Bool.false_eq_true, if_false, List.mem_singleton,
        SlotChoice.move.injEq] at hin
      rw [hin] at hneeds
      exact absurd hneeds hn
  | switch s => simp at hin
  | item => simp at hin
  | pass => simp at hin

/-- Witness for c10_expansion_strips_flags: the first expanded choice of the
demo pending list, whose pending move carried tera=true, appears with all
flags cleared. -/
theorem c10_expansion_strips_flags_witness :
    (SlotChoice.move ⟨1, some DexMoveTarget.normal, some 1, false, false, false, false⟩ ∈
        clean_slot_options Gametype.doubles [-1, 1, 2] (-1) demoTurnList ∧
      needs_target (some DexMoveTarget.normal) = true) ∧
    ((⟨1, some DexMoveTarget.normal, some 1, false, false, false, false⟩ : MoveChoice).tera = false ∧
     (⟨1, some DexMoveTarget.normal, some 1, false, false, false, false⟩ : MoveChoice).mega = false ∧
     (⟨1, some DexMoveTarget.normal, some 1, false, false, false, false⟩ : MoveChoice).dyna = false ∧
     (⟨1, some DexMoveTarget.normal, some 1, false, false, false, false⟩ : MoveChoice).zmove = false) :=
  ⟨⟨by decide, by decide⟩,
   c10_expansion_strips_flags Gametype.doubles [-1, 1, 2] (-1) demoTurnList
     ⟨1, some DexMoveTarget.normal, some 1, false, false, false, false⟩
     (by decide) (by decide)⟩

/-- Claim C7: recording a decision appends the action to battle_actions and a
copy of the last snapshot to battle_states, leaving every earlier snapshot in
place, and every reachable battle record satisfies
len(battle_actions) ∈ {len(battle_states)-1, len(battle_states)}. -/
theorem c7_record_invariant (b : BattleRec) (hreach : BattleReachable b) :
    (b.battle_actions.length = b.battle_states.length ∨
     b.battle_actions.length + 1 = b.battle_states.length) ∧
    (∀ (a : AnyChoiceV) (s : String) (b' : BattleRec),
      processor_process_action b a s = some b' →
      b'.battle_actions = b.battle_actions ++ [a] ∧
      ∃ last, b.battle_states.getLast? = some last ∧
        b'.battle_states = b.battle_states ++ [last]) := by
  constructor
  · induction hreach with
    | created => exact Or.inl rfl
    | initEvent b bs hb hempty ih =>
      simp only [List.length_append, List.length_cons, List.length_nil, hempty] at *
      omega
    | decided b b' a s hb hpa ih =>
      unfold processor_process_action at hpa
      cases hlast : b.battle_states.getLast? with
      | none => rw [hlast] at hpa; cases hpa
      | some last =>
        rw [hlast] at hpa
        injection hpa with h
        rw [← h]
        simp only [List.length_append, List.length_cons, List.length_nil]
        omega
    | rewroteLast b st hb hne ih =>
      have hpos : 0 < b.battle_states.length := List.length_pos.mpr hne
      simp only [List.length_append, List.length_dropLast, List.length_cons,
        List.length_nil] at *
      omega
    | logged b line hb ih => exact ih
  · intro a s b' hpa
    unfold processor_process_action at hpa
    cases hlast : b.battle_states.getLast? with
    | none => rw [hlast] at hpa; cases hpa
    | some last =>
      rw [hlast] at hpa
      injection hpa with h
      exact ⟨by rw [← h], last, rfl, by rw [← h]⟩

/-- Witness for c7_record_invariant at the concrete reachable demo record. -/
theorem c7_record_invariant_witness :
    (demoBattle.battle_actions.length = demoBattle.battle_states.length ∨
     demoBattle.battle_actions.length + 1 = demoBattle.battle_states.length) ∧
    (∀ (a : AnyChoiceV) (s : String) (b' : BattleRec),
      processor_process_action demoBattle a s = some b' →
      b'.battle_actions = demoBattle.battle_actions ++ [a] ∧
      ∃ last, demoBattle.battle_states.getLast? = some last ∧
        b'.battle_states = demoBattle.battle_states ++ [last]) :=
  c7_record_invariant demoBattle
    (by exact BattleReachable.initEvent emptyBattle demoTurnState
          BattleReachable.created rfl)

/-- Helper: a submission that raises AssertionError is caught by the
connector as an INVALID_CHOICE termination. -/
theorem connector_on_assert (g : Gametype) (procs : List String) (ps : ProgressState)
    (a : AnyChoiceV) (bid : Option String) (m : String)
    (h1 : ps ≠ ProgressState.fullEnd) (h2 : ps ≠ ProgressState.gameEnd)
    (h : submit_action g procs ps a bid = Except.error (PyExn.assertionError m)) :
    connector_process_action g procs ps a bid =
      some ⟨ConnectionTerminationCode.invalidChoice, some m⟩ := by
  unfold connector_process_action
  rw [if_neg h1, if_neg h2, h]

/-- Helper: a submission that raises an uncaught-class exception (KeyError) is
caught by the connector as an OTHER_ERROR termination. -/
theorem connector_on_keyerror (g : Gametype) (procs : List String) (ps : ProgressState)
    (a : AnyChoiceV) (bid : Option String) (m : String)
    (h1 : ps ≠ ProgressState.fullEnd) (h2 : ps ≠ ProgressState.gameEnd)
    (h : submit_action g procs ps a bid = Except.error (PyExn.keyError m)) :
    connector_process_action g procs ps a bid =
      some ⟨ConnectionTerminationCode.otherError, some m⟩ := by
  unfold connector_process_action
  rw [if_neg h1, if_neg h2, h]

/-- Helper: for a Switch or Move signal, a per-slot list whose length is not
the slot count of the gametype makes submit_action raise AssertionError. -/
theorem submit_wrong_length_asserts (g : Gametype) (procs : List String) (ps : ProgressState)
    (l : List SlotChoice) (bid : Option String)
    (hps : ps = ProgressState.switch ∨ ps = ProgressState.move)
    (hlen : l.length ≠ slot_count g) :
    ∃ m, submit_action g procs ps (AnyChoiceV.slots l) bid =
      Except.error (PyExn.assertionError m) := by
  rcases hps with rfl | rfl
  · by_cases hb : bearable_force_switch (AnyChoiceV.slots l) = true
    · cases bid with
      | none =>
        exact ⟨"battle_id was None! This likely means a bug in websocketconnector, not your code!",
          by simp [submit_action, hb]⟩
      | some b =>
        exact ⟨"gametype mismatch: you sent " ++ toString l.length ++ " commands!",
          by simp [submit_action, hb, hlen]⟩
    · exact ⟨"action was not a valid ForceSwitchChoice!", by simp [submit_action, hb]⟩
  · cases bid with
    | none =>
      exact ⟨"battle_id was None! This likely means a bug in websocketconnector, not your code!",
        by simp [submit_action, bearable_move_decision]⟩
    | some b =>
      exact ⟨"gametype mismatch: you sent " ++ toString l.length ++ " commands!",
        by simp [submit_action, bearable_move_decision, hlen]⟩

/-- Claim C2, as frozen, is false on the code at its stated input: in doubles,
submitting a one-element per-slot list at a Move signal does yield an
INVALID_CHOICE-coded result, but launch_connection then breaks out of its
message loop and ends the whole connection, rather than letting the
connection continue. -/
theorem c2_counterexample_connection_ends :
    launch_step (connector_process_action Gametype.doubles ["battle-1"] ProgressState.move
      (AnyChoiceV.slots [SlotChoice.pass]) (some "battle-1")) ≠ LoopOutcome.continueLoop ∧
    (connector_process_action Gametype.doubles ["battle-1"] ProgressState.move
      (AnyChoiceV.slots [SlotChoice.pass]) (some "battle-1")).map (fun ct => ct.code) =
      some ConnectionTerminationCode.invalidChoice := by
  constructor
  · decide
  · decide

/-- Claim C2 (amended): a per-slot list of the wrong length for a Switch or
Move signal yields an InvalidChoice-coded ConnectionTermination, on which
launch_connection ends the whole connection with FULL_END (not just that
battle); an exception that is not an assertion or not-implemented failure
yields an OtherError result. -/
theorem c2_shape_mismatch_amended (g : Gametype) (procs : List String) (ps : ProgressState)
    (l : List SlotChoice) (bid : Option String)
    (hps : ps = ProgressState.switch ∨ ps = ProgressState.move)
    (hlen : l.length ≠ slot_count g) :
    (∃ m, connector_process_action g procs ps (AnyChoiceV.slots l) bid =
        some ⟨ConnectionTerminationCode.invalidChoice, some m⟩ ∧
      launch_step (connector_process_action g procs ps (AnyChoiceV.slots l) bid) =
        LoopOutcome.endConnection ⟨ConnectionTerminationCode.invalidChoice, some m⟩) ∧
    (∀ (a : AnyChoiceV) (b2 : Option String) (m : String),
      submit_action g procs ps a b2 = Except.error (PyExn.keyError m) →
      connector_process_action g procs ps a b2 =
        some ⟨ConnectionTerminationCode.otherError, some m⟩) := by
  have hne1 : ps ≠ ProgressState.fullEnd := by rcases hps with rfl | rfl <;> simp
  have hne2 : ps ≠ ProgressState.gameEnd := by rcases hps with rfl | rfl <;> simp
  constructor
  · obtain ⟨m, hm⟩ := submit_wrong_length_asserts g procs ps l bid hps hlen
    have hc := connector_on_assert g procs ps _ bid m hne1 hne2 hm
    exact ⟨m, hc, by rw [hc]; rfl⟩
  · intro a b2 m hsub
    exact connector_on_keyerror g procs ps a b2 m hne1 hne2 hsub

/-- Witness for c2_shape_mismatch_amended: a one-element list at a Move signal
in doubles. -/
theorem c2_shape_mismatch_witness :
    ((ProgressState.move = ProgressState.switch ∨ ProgressState.move = ProgressState.move) ∧
     ([SlotChoice.pass] : List SlotChoice).length ≠ slot_count Gametype.doubles) ∧
    ((∃ m, connector_process_action Gametype.doubles ["battle-1"] ProgressState.move
        (AnyChoiceV.slots [SlotChoice.pass]) (some "battle-1") =
        some ⟨ConnectionTerminationCode.invalidChoice, some m⟩ ∧
      launch_step (connector_process_action Gametype.doubles ["battle-1"] ProgressState.move
        (AnyChoiceV.slots [SlotChoice.pass]) (some "battle-1")) =
        LoopOutcome.endConnection ⟨ConnectionTerminationCode.invalidChoice, some m⟩) ∧
     (∀ (a : AnyChoiceV) (b2 : Option String) (m : String),
      submit_action Gametype.doubles ["battle-1"] ProgressState.move a b2 =
        Except.error (PyExn.keyError m) →
      connector_process_action Gametype.doubles ["battle-1"] ProgressState.move a b2 =
        some ⟨ConnectionTerminationCode.otherError, some m⟩)) :=
  ⟨⟨Or.inr rfl, by decide⟩,
   c2_shape_mismatch_amended Gametype.doubles ["battle-1"] ProgressState.move
     [SlotChoice.pass] (some "battle-1") (Or.inr rfl) (by decide)⟩

/-- Claim C6 and the resign gap: quit always returns a termination carrying
the USER REQUESTED SHUTDOWN message whether or not a battle id is present, and
resign without a battle id is caught as an invalid choice; but resign with a
battle id returns with no termination, no transmitted frame and no other
effect, so the battle itself is not terminated (the TODO at
websocketconnector.py line 482). -/
theorem c6_quit_resign_eval :
    submit_action Gametype.doubles ["battle-1"] ProgressState.move AnyChoiceV.quit none
      = Except.ok (some ⟨ConnectionTerminationCode.otherError, some "USER REQUESTED SHUTDOWN"⟩,
          none) ∧
    submit_action Gametype.doubles ["battle-1"] ProgressState.move AnyChoiceV.quit
        (some "battle-1")
      = Except.ok (some ⟨ConnectionTerminationCode.otherError, some "USER REQUESTED SHUTDOWN"⟩,
          none) ∧
    (connector_process_action Gametype.doubles ["battle-1"] ProgressState.move AnyChoiceV.resign
        none).map (fun ct => ct.code) = some ConnectionTerminationCode.invalidChoice ∧
    submit_action Gametype.doubles ["battle-1"] ProgressState.move AnyChoiceV.resign
        (some "battle-1")
      = Except.ok (none, none) ∧
    connector_process_action Gametype.doubles ["battle-1"] ProgressState.move AnyChoiceV.resign
      (some "battle-1") = none ∧
    launch_step (connector_process_action Gametype.doubles ["battle-1"] ProgressState.move
      AnyChoiceV.resign (some "battle-1")) = LoopOutcome.continueLoop :=
  ⟨rfl, rfl, rfl, rfl, rfl, rfl⟩

/-- Claim C1, as frozen, is false on the code at its own stated input: in
doubles, attacker slot -1 against candidate slot +2 gives
|(max+1−|source|) − |candidate|| = |(2+1−1) − 2| = 0 ≠ 1, so the pair is not
a corner foe (it is the directly-opposite adjacent foe). -/
theorem c1_counterexample_corner_foe :
    ¬ (is_corner_foe_calc (-1) 2 Gametype.doubles = true) := by decide

/-- Claim C1 (amended): in doubles, attacker slot -1 with candidate slot +2 is
the directly-opposite adjacent foe (not a corner foe) and is a legal target
for category normal; candidate slot -2 is adjacent-ally, hence a legal target
for category adjacent-ally and an illegal target for category adjacent-foe. -/
theorem c1_targeting_doubles :
    can_target_slot (-1) 2 DexMoveTarget.normal Gametype.doubles = some true ∧
    is_adj_foe_calc (-1) 2 Gametype.doubles = true ∧
    is_corner_foe_calc (-1) 2 Gametype.doubles = false ∧
    can_target_slot (-1) (-2) DexMoveTarget.adjacentAlly Gametype.doubles = some true ∧
    can_target_slot (-1) (-2) DexMoveTarget.adjacentFoe Gametype.doubles = some false := by
  decide

end Pokesage
